import Mathlib

/-!
Shallow embedding of the client-side logic of a hotel-booking single-page
application: route guards (`ProtectedRoute.tsx`), the login submit handler
(`Login.tsx`), the axios interceptors (`utils/api.ts`), the favorites toggle
(`Home.tsx`), the booking mutation handlers (`UserCenter.tsx`,
`OperatorDashboard.tsx`), the per-status action rendering, the operator
hotel-card ownership gating, and the hotel-detail booking button.

View handlers are embedded as pure functions from their explicit inputs
(session, current local state, network outcome) to a record of the local
state they leave behind, the network calls they issue, and the UI effects
(redirect target, snackbar) they produce.
-/

/-- Role carried by an authenticated session: `'operator' | 'user'` in the source. -/
inductive Role
  | user
  | operator
  deriving DecidableEq, Repr

/-- The authenticated identity exposed by the auth context (`user` object). -/
structure User where
  id : Nat
  email : String
  role : Role
  deriving DecidableEq, Repr

/-- What a route-guard component renders: a spinner, a `<Navigate to=.../>`, or its children. -/
inductive RouteResult
  | waitIndicator
  | redirect (target : String)
  | renderChildren
  deriving DecidableEq, Repr

/-- `ProtectedRoute` from `src/components/ProtectedRoute.tsx`, as a pure function of
`(loading, user, requiredRole)`.  The source checks `loading`, then `!user`, then
`requiredRole && user.role !== requiredRole` with one redirect per required role
(both redirect to `"/"`), and otherwise renders the children. -/
def protectedRoute (loading : Bool) (user : Option User) (requiredRole : Option Role) : RouteResult :=
  if loading then
    RouteResult.waitIndicator
  else
    match user with
    | none => RouteResult.redirect "/login"
    | some u =>
      match requiredRole with
      | some r =>
        if u.role ≠ r then
          -- source: `if (requiredRole === 'operator') return <Navigate to="/" .../>;`
          --         `if (requiredRole === 'user') return <Navigate to="/" .../>;`
          if r = Role.operator then RouteResult.redirect "/" else RouteResult.redirect "/"
        else
          RouteResult.renderChildren
      | none => RouteResult.renderChildren

/-- The role-based home target, the ternary `user.role === 'operator' ? '/operator' : '/'`
shared by `PublicRoute` and the `Login` submit handler. -/
def roleHome (r : Role) : String :=
  if r = Role.operator then "/operator" else "/"

/-- `PublicRoute` from `src/components/ProtectedRoute.tsx`: spinner while loading,
redirect to the role home when a session is present, otherwise the children. -/
def publicRoute (loading : Bool) (user : Option User) : RouteResult :=
  if loading then
    RouteResult.waitIndicator
  else
    match user with
    | some u => RouteResult.redirect (roleHome u.role)
    | none => RouteResult.renderChildren

/-- An axios-style error as the views consume it: `error.response?.data?.message`
is modelled by the optional `message`. -/
structure ApiError where
  status : Nat
  message : Option String
  deriving DecidableEq, Repr

/-- The `error.response?.data?.message || fallback` pattern used by every catch block. -/
def errMessageOr (e : ApiError) (fallback : String) : String :=
  e.message.getD fallback

/-- Successful payload of `POST /auth/login`: `{ token, user }`. -/
structure LoginResponse where
  token : String
  user : User
  deriving DecidableEq, Repr

/-- Observable outcome of the `Login` submit handler. -/
structure LoginResult where
  sessionLogin : Option (User × String)
  navigatedTo : Option String
  errorShown : Option String
  deriving DecidableEq, Repr

/-- The `onSubmit` handler of `src/pages/Login.tsx`: on success it stores the session
via `login(user, token)` and navigates to the role home; on failure it shows the
server message or a fallback. -/
def loginOnSubmit (res : Except ApiError LoginResponse) : LoginResult :=
  match res with
  | Except.ok r =>
    { sessionLogin := some (r.user, r.token)
      navigatedTo := some (roleHome r.user.role)
      errorShown := none }
  | Except.error e =>
    { sessionLogin := none
      navigatedTo := none
      errorShown := some (errMessageOr e "Login failed, incorrect username or password") }

/-- JavaScript object-style header assignment `config.headers[k] = v`: overwrite an
existing entry for the key, otherwise append a new one. -/
def setHeader (headers : List (String × String)) (k v : String) : List (String × String) :=
  if headers.any (fun p => p.1 == k) then
    headers.map (fun p => if p.1 == k then (k, v) else p)
  else
    headers ++ [(k, v)]

/-- Header lookup, used to observe what a request carries. -/
def getHeader (headers : List (String × String)) (k : String) : Option String :=
  (headers.find? (fun p => p.1 == k)).map Prod.snd

/-- The request interceptor of `utils/api.ts`: read the persisted token and, when
present, set `Authorization` to `Bearer <token>`; otherwise return the config
unchanged. -/
def requestInterceptor (token : Option String) (headers : List (String × String)) :
    List (String × String) :=
  match token with
  | some t => setHeader headers "Authorization" ("Bearer " ++ t)
  | none => headers

/-- A resolved HTTP response as the interceptor sees it. -/
structure ApiResponse where
  status : Nat
  body : String
  deriving DecidableEq, Repr

/-- The fulfilled branch of the response interceptor: `(response) => response`. -/
def responseOnFulfilled (response : ApiResponse) : ApiResponse :=
  response

/-- The rejected branch of the response interceptor:
`(error) => Promise.reject(error)`. -/
def responseOnRejected (error : ApiError) : Except ApiError ApiResponse :=
  Except.error error

/-- A raw call outcome routed through the response interceptor pair. -/
def interceptedResponse (raw : Except ApiError ApiResponse) : Except ApiError ApiResponse :=
  match raw with
  | Except.ok r => Except.ok (responseOnFulfilled r)
  | Except.error e => responseOnRejected e

/-- Snackbar severity, `'success' | 'error'` in the source. -/
inductive Severity
  | success
  | error
  deriving DecidableEq, Repr

/-- A `setSnackbar` payload: `{ open, message, severity }` (`open` renamed `isOpen`). -/
structure Snackbar where
  isOpen : Bool
  message : String
  severity : Severity
  deriving DecidableEq, Repr

/-- Network calls a handler can issue, identified by endpoint. -/
inductive ApiCall
  | postFavorites (hotelId : Nat)
  | deleteFavorites (hotelId : Nat)
  | postBookingCancel (bookingId : Nat)
  | postBookingConfirm (bookingId : Nat)
  | postBookingComplete (bookingId : Nat)
  deriving DecidableEq, Repr

/-- Everything `handleToggleFavorite` leaves behind: the favorites state, the
network calls it issued, and the snackbar it set. -/
structure ToggleFavoriteResult where
  favorites : List Nat
  calls : List ApiCall
  snackbar : Option Snackbar
  deriving DecidableEq, Repr

/-- `handleToggleFavorite` from `src/pages/Home.tsx`.  Without a session it sets a
"Please login first" snackbar and returns; with a session it deletes or creates
the favorite depending on `favorites.includes(hotelId)`, patching the local set
only when the awaited call succeeds (`net`), and on failure shows the server
message or `'Operation failed'`. -/
def handleToggleFavorite (user : Option User) (net : Except ApiError Unit)
    (favorites : List Nat) (hotelId : Nat) : ToggleFavoriteResult :=
  match user with
  | none =>
    { favorites := favorites
      calls := []
      snackbar := some { isOpen := true, message := "Please login first", severity := Severity.error } }
  | some _ =>
    if favorites.contains hotelId then
      match net with
      | Except.ok _ =>
        { favorites := favorites.filter (fun i => i != hotelId)
          calls := [ApiCall.deleteFavorites hotelId]
          snackbar := some { isOpen := true, message := "Removed from favorites", severity := Severity.success } }
      | Except.error e =>
        { favorites := favorites
          calls := [ApiCall.deleteFavorites hotelId]
          snackbar := some { isOpen := true, message := errMessageOr e "Operation failed", severity := Severity.error } }
    else
      match net with
      | Except.ok _ =>
        { favorites := favorites ++ [hotelId]
          calls := [ApiCall.postFavorites hotelId]
          snackbar := some { isOpen := true, message := "Added to favorites", severity := Severity.success } }
      | Except.error e =>
        { favorites := favorites
          calls := [ApiCall.postFavorites hotelId]
          snackbar := some { isOpen := true, message := errMessageOr e "Operation failed", severity := Severity.error } }

/-- A booking record as `src/pages/UserCenter.tsx` declares it. -/
structure Booking where
  id : Nat
  hotelName : String
  hotelAddress : String
  checkInDate : String
  checkOutDate : String
  guestCount : Nat
  totalPrice : Nat
  status : String
  specialRequests : Option String
  createdAt : String
  deriving DecidableEq, Repr

/-- What `handleCancelBooking` leaves behind. -/
structure CancelBookingResult where
  bookings : List Booking
  calls : List ApiCall
  snackbar : Option Snackbar
  deriving DecidableEq, Repr

/-- `handleCancelBooking` from `src/pages/UserCenter.tsx`: issue
`POST /bookings/{id}/cancel`; on success map the bookings list, replacing the
status of entries with the matching id by `'cancelled'`; on failure leave the
list alone and show the server message or `'Cancel failed'`. -/
def handleCancelBooking (net : Except ApiError Unit) (bookings : List Booking)
    (bookingId : Nat) : CancelBookingResult :=
  match net with
  | Except.ok _ =>
    { bookings := bookings.map (fun booking =>
        if booking.id = bookingId then { booking with status := "cancelled" } else booking)
      calls := [ApiCall.postBookingCancel bookingId]
      snackbar := some { isOpen := true, message := "Booking cancelled", severity := Severity.success } }
  | Except.error e =>
    { bookings := bookings
      calls := [ApiCall.postBookingCancel bookingId]
      snackbar := some { isOpen := true, message := errMessageOr e "Cancel failed", severity := Severity.error } }

/-- A booking record as `src/pages/OperatorDashboard.tsx` declares it
(additionally carries `userEmail`). -/
structure OperatorBooking where
  id : Nat
  hotelName : String
  hotelAddress : String
  userEmail : String
  checkInDate : String
  checkOutDate : String
  guestCount : Nat
  totalPrice : Nat
  status : String
  specialRequests : Option String
  createdAt : String
  deriving DecidableEq, Repr

/-- What an operator booking mutation leaves behind; `refetch` records whether
`fetchBookings()` was invoked. -/
structure OperatorMutationResult where
  bookings : List OperatorBooking
  calls : List ApiCall
  refetch : Bool
  snackbar : Option Snackbar
  deriving DecidableEq, Repr

/-- `handleConfirmBooking` from `src/pages/OperatorDashboard.tsx`: issue
`POST /bookings/{id}/confirm`; on success show a snackbar and refetch the list;
never patch the local bookings state. -/
def handleConfirmBooking (net : Except ApiError Unit) (bookings : List OperatorBooking)
    (bookingId : Nat) : OperatorMutationResult :=
  match net with
  | Except.ok _ =>
    { bookings := bookings
      calls := [ApiCall.postBookingConfirm bookingId]
      refetch := true
      snackbar := some { isOpen := true, message := "Booking confirmed", severity := Severity.success } }
  | Except.error e =>
    { bookings := bookings
      calls := [ApiCall.postBookingConfirm bookingId]
      refetch := false
      snackbar := some { isOpen := true, message := errMessageOr e "Confirm failed", severity := Severity.error } }

/-- `handleCompleteBooking` from `src/pages/OperatorDashboard.tsx`: issue
`POST /bookings/{id}/complete`; on success show a snackbar and refetch the list;
never patch the local bookings state. -/
def handleCompleteBooking (net : Except ApiError Unit) (bookings : List OperatorBooking)
    (bookingId : Nat) : OperatorMutationResult :=
  match net with
  | Except.ok _ =>
    { bookings := bookings
      calls := [ApiCall.postBookingComplete bookingId]
      refetch := true
      snackbar := some { isOpen := true, message := "Booking completed", severity := Severity.success } }
  | Except.error e =>
    { bookings := bookings
      calls := [ApiCall.postBookingComplete bookingId]
      refetch := false
      snackbar := some { isOpen := true, message := errMessageOr e "Complete failed", severity := Severity.error } }

/-- Mutating actions the operator booking card can render. -/
inductive OperatorBookingAction
  | confirmBooking
  | completeBooking
  deriving DecidableEq, Repr

/-- The action icons rendered by the operator booking card: the confirm button is
wrapped in `{booking.status === 'pending' && ...}` and the complete button in
`{booking.status === 'confirmed' && ...}`. -/
def operatorBookingActions (status : String) : List OperatorBookingAction :=
  (if status = "pending" then [OperatorBookingAction.confirmBooking] else []) ++
    (if status = "confirmed" then [OperatorBookingAction.completeBooking] else [])

/-- The user booking card's cancel button, wrapped in
`{booking.status === 'pending' && ...}` in `src/pages/UserCenter.tsx`. -/
def userCenterShowsCancel (status : String) : Bool :=
  status == "pending"

/-- A hotel record as the detail page and the operator dashboard declare it. -/
structure Hotel where
  id : Nat
  name : String
  address : String
  description : Option String
  price : Nat
  availableRooms : Nat
  operatorId : Nat
  deriving DecidableEq, Repr

/-- The ownership test `user && hotel.operatorId === user.id` guarding the operator
hotel-card actions in `src/pages/OperatorDashboard.tsx`. -/
def hotelOwnedByCurrent (user : Option User) (hotel : Hotel) : Bool :=
  match user with
  | some u => hotel.operatorId == u.id
  | none => false

/-- The edit icon's `disabled={!(user && hotel.operatorId === user.id)}`. -/
def hotelEditDisabled (user : Option User) (hotel : Hotel) : Bool :=
  !(hotelOwnedByCurrent user hotel)

/-- The edit icon's `onClick`, attached only when owned
(`... ? () => handleOpenDialog(hotel) : undefined`). -/
def hotelEditOnClickAttached (user : Option User) (hotel : Hotel) : Bool :=
  hotelOwnedByCurrent user hotel

/-- The delete icon's `disabled={!(user && hotel.operatorId === user.id)}`. -/
def hotelDeleteDisabled (user : Option User) (hotel : Hotel) : Bool :=
  !(hotelOwnedByCurrent user hotel)

/-- The delete icon's `onClick={() => handleDeleteHotel(hotel.id)}`, always attached. -/
def hotelDeleteOnClickAttached (_user : Option User) (_hotel : Hotel) : Bool :=
  true

/-- The edit handler can fire only when it is attached and the button is enabled. -/
def hotelEditReachable (user : Option User) (hotel : Hotel) : Bool :=
  hotelEditOnClickAttached user hotel && !(hotelEditDisabled user hotel)

/-- The delete handler can fire only when it is attached and the button is enabled. -/
def hotelDeleteReachable (user : Option User) (hotel : Hotel) : Bool :=
  hotelDeleteOnClickAttached user hotel && !(hotelDeleteDisabled user hotel)

/-- The Book Now button's `disabled={hotel.availableRooms === 0}` in
`src/pages/HotelDetail.tsx`. -/
def bookNowDisabled (hotel : Hotel) : Bool :=
  hotel.availableRooms == 0

/-- Observable outcome of pressing the Book Now button. -/
structure BookingClickResult where
  dialogOpen : Bool
  navigatedTo : Option String
  calls : List ApiCall
  deriving DecidableEq, Repr

/-- `handleBooking` from `src/pages/HotelDetail.tsx`: without a session it
navigates to `/login` and returns; otherwise it opens the booking dialog.
It issues no network call either way. -/
def handleBooking (user : Option User) : BookingClickResult :=
  match user with
  | none => { dialogOpen := false, navigatedTo := some "/login", calls := [] }
  | some _ => { dialogOpen := true, navigatedTo := none, calls := [] }

/-- A click on the Book Now button: a disabled button never fires its handler,
so with `availableRooms = 0` nothing happens; otherwise `handleBooking` runs. -/
def clickBookNow (user : Option User) (hotel : Hotel) : BookingClickResult :=
  if bookNowDisabled hotel then
    { dialogOpen := false, navigatedTo := none, calls := [] }
  else
    handleBooking user

/-- A concrete pending booking used to instantiate theorems. -/
def bookingSample : Booking :=
  { id := 1, hotelName := "Sea View", hotelAddress := "1 Beach Rd"
    checkInDate := "2024-01-01", checkOutDate := "2024-01-03"
    guestCount := 2, totalPrice := 200, status := "pending"
    specialRequests := none, createdAt := "2023-12-30" }

/-- A concrete server failure used to instantiate theorems. -/
def apiErrorSample : ApiError :=
  { status := 500, message := none }

/-- A concrete fully-booked hotel used to instantiate theorems. -/
def hotelNoRooms : Hotel :=
  { id := 1, name := "Full House", address := "2 Hill Rd", description := none
    price := 80, availableRooms := 0, operatorId := 9 }

/-- A concrete hotel with free rooms used to instantiate theorems. -/
def hotelOpenRooms : Hotel :=
  { id := 2, name := "Open House", address := "3 Lake Rd", description := none
    price := 90, availableRooms := 3, operatorId := 9 }

/-- If a predicate finds nothing in `l`, searching `l ++ l'` searches `l'`. -/
theorem find?_append_of_none {α : Type} (p : α → Bool) (l l' : List α)
    (h : l.find? p = none) : (l ++ l').find? p = l'.find? p := by
  induction l with
  | nil => rfl
  | cons a t ih =>
    cases hpa : p a with
    | true =>
      rw [List.find?_cons_of_pos _ hpa] at h
      exact absurd h (by simp)
    | false =>
      have hpa' : ¬ p a = true := by simp [hpa]
      rw [List.find?_cons_of_neg _ hpa'] at h
      rw [List.cons_append, List.find?_cons_of_neg _ hpa']
      exact ih h

/-- A header absent from a config is present with the assigned value after
`setHeader`. -/
theorem getHeader_setHeader_fresh (headers : List (String × String)) (k v : String)
    (h : getHeader headers k = none) :
    getHeader (setHeader headers k v) k = some v := by
  have hnone : headers.find? (fun p => p.1 == k) = none := by
    unfold getHeader at h
    exact Option.map_eq_none'.mp h
  have hany : headers.any (fun p => p.1 == k) = false := by
    rw [List.any_eq_false]
    intro x hx
    have := List.find?_eq_none.mp hnone x hx
    simpa using this
  unfold setHeader
  rw [hany]
  simp only [Bool.false_eq_true, if_false]
  unfold getHeader
  rw [find?_append_of_none _ _ _ hnone]
  simp

/-- C3: for a request whose config does not already carry an `Authorization`
entry, the interceptor attaches `Authorization: Bearer <token>` exactly when a
token is persisted, and with no token it leaves the config unchanged, in
particular without any `Authorization` entry. -/
theorem requestInterceptor_bearer (token : Option String)
    (headers : List (String × String))
    (hfresh : getHeader headers "Authorization" = none) :
    (∀ t, token = some t →
      getHeader (requestInterceptor token headers) "Authorization"
        = some ("Bearer " ++ t)) ∧
    (token = none →
      requestInterceptor token headers = headers ∧
      getHeader (requestInterceptor token headers) "Authorization" = none) := by
  constructor
  · intro t ht
    subst ht
    exact getHeader_setHeader_fresh headers "Authorization" ("Bearer " ++ t) hfresh
  · intro ht
    subst ht
    exact ⟨rfl, hfresh⟩

/-- C3 witness: on a fresh config, a persisted token yields the bearer header and
an absent token leaves the config untouched. -/
theorem requestInterceptor_bearer_witness :
    getHeader ([] : List (String × String)) "Authorization" = none ∧
    getHeader (requestInterceptor (some "tok") []) "Authorization"
      = some ("Bearer " ++ "tok") ∧
    requestInterceptor none [] = [] :=
  ⟨rfl,
   (requestInterceptor_bearer (some "tok") [] rfl).1 "tok" rfl,
   ((requestInterceptor_bearer none [] rfl).2 rfl).1⟩

/-- C4: the response interceptor pair is a pass-through: a successful response is
returned as is and a failure is re-raised exactly as received, with its payload
intact, no retry and no transformation. -/
theorem responseInterceptor_pass_through (raw : Except ApiError ApiResponse) :
    interceptedResponse raw = raw ∧
    (∀ e, responseOnRejected e = Except.error e) := by
  constructor
  · cases raw <;> rfl
  · intro e
    rfl

/-- C1 counterexample: the claim says a resolved session whose role differs from
the required role is redirected to that role's home view.  For an operator
session on a user-only route the role home is `/operator`, but the guard
redirects to `/`. -/
theorem protectedRoute_mismatch_not_role_home :
    ¬ protectedRoute false (some { id := 1, email := "op@example.com", role := Role.operator })
        (some Role.user)
      = RouteResult.redirect (roleHome Role.operator) := by
  decide

/-- C1 (amended): the authenticated-only guard is the four-state machine of the
spec, except that a role-mismatch redirect always targets the home route `/`
(which coincides with the role home only for user-role sessions): loading
renders only the wait indicator, a resolved absent session redirects to
`/login`, a resolved mismatched session redirects to `/` (so a non-operator
session never reaches operator children), and otherwise the children render. -/
theorem protectedRoute_state_machine (loading : Bool) (user : Option User)
    (req : Option Role) :
    (loading = true → protectedRoute loading user req = RouteResult.waitIndicator) ∧
    (loading = false → user = none →
      protectedRoute loading user req = RouteResult.redirect "/login") ∧
    (∀ u r, loading = false → user = some u → req = some r → u.role ≠ r →
      protectedRoute loading user req = RouteResult.redirect "/") ∧
    (∀ u, loading = false → user = some u → (∀ r, req = some r → u.role = r) →
      protectedRoute loading user req = RouteResult.renderChildren) := by
  refine ⟨?_, ?_, ?_, ?_⟩
  · intro h
    subst h
    rfl
  · intro h h'
    subst h
    subst h'
    rfl
  · intro u r h hu hr hne
    subst h
    subst hu
    subst hr
    cases r <;> simp [protectedRoute, hne]
  · intro u h hu hall
    subst h
    subst hu
    match req with
    | none => rfl
    | some r =>
      have := hall r rfl
      cases r <;> simp [protectedRoute, this]

/-- C1 witness: the four branches of the amended state machine at concrete inputs. -/
theorem protectedRoute_state_machine_witness :
    protectedRoute true none none = RouteResult.waitIndicator ∧
    protectedRoute false none none = RouteResult.redirect "/login" ∧
    protectedRoute false (some ⟨2, "u@example.com", Role.user⟩) (some Role.operator)
      = RouteResult.redirect "/" ∧
    protectedRoute false (some ⟨2, "u@example.com", Role.user⟩) (some Role.user)
      = RouteResult.renderChildren :=
  ⟨(protectedRoute_state_machine true none none).1 rfl,
   (protectedRoute_state_machine false none none).2.1 rfl rfl,
   (protectedRoute_state_machine false _ _).2.2.1 _ Role.operator rfl rfl rfl (by decide),
   (protectedRoute_state_machine false _ _).2.2.2 _ rfl rfl
     (by intro r hr; cases hr; rfl)⟩

/-- C2: the guest-only gate redirects every resolved authenticated session to the
role-appropriate home (`operator` to `/operator`, any other role to `/`),
renders its children exactly when the session is resolved and absent, and a
successful login navigates to that same role home. -/
theorem publicRoute_login_role_home (loading : Bool) (user : Option User) :
    (∀ u, loading = false → user = some u →
      publicRoute loading user = RouteResult.redirect (roleHome u.role)) ∧
    (publicRoute loading user = RouteResult.renderChildren ↔ loading = false ∧ user = none) ∧
    (∀ r : LoginResponse,
      (loginOnSubmit (Except.ok r)).navigatedTo = some (roleHome r.user.role)) ∧
    roleHome Role.operator = "/operator" ∧
    (∀ r, r ≠ Role.operator → roleHome r = "/") := by
  refine ⟨?_, ?_, ?_, rfl, ?_⟩
  · intro u h hu
    subst h
    subst hu
    rfl
  · cases loading <;> cases user <;> simp [publicRoute]
  · intro r
    rfl
  · intro r hr
    cases r with
    | user => rfl
    | operator => exact absurd rfl hr

/-- C2 witness: an operator session is sent to `/operator`, a user session to `/`,
children render only with no session, and login lands on the role home. -/
theorem publicRoute_login_role_home_witness :
    publicRoute false (some ⟨3, "op@example.com", Role.operator⟩)
      = RouteResult.redirect (roleHome Role.operator) ∧
    (publicRoute false none = RouteResult.renderChildren ↔ false = false ∧
      (none : Option User) = none) ∧
    (loginOnSubmit (Except.ok ⟨"t1", ⟨3, "op@example.com", Role.operator⟩⟩)).navigatedTo
      = some (roleHome Role.operator) :=
  ⟨(publicRoute_login_role_home false _).1 _ rfl rfl,
   (publicRoute_login_role_home false none).2.1,
   (publicRoute_login_role_home false none).2.2.1 _⟩

/-- C5: invoking the favorites toggle with no active session shows the
"Please login first" notice, issues no network call, and leaves the local
favorites set unchanged, whatever the would-be network outcome. -/
theorem handleToggleFavorite_no_session (net : Except ApiError Unit)
    (favorites : List Nat) (hotelId : Nat) :
    handleToggleFavorite none net favorites hotelId =
      { favorites := favorites
        calls := []
        snackbar := some { isOpen := true, message := "Please login first", severity := Severity.error } } :=
  rfl

/-- With the hotel already a favorite, a successful toggle filters it out. -/
theorem handleToggleFavorite_ok_mem (u : User) (favorites : List Nat) (hotelId : Nat)
    (h : hotelId ∈ favorites) :
    (handleToggleFavorite (some u) (Except.ok ()) favorites hotelId).favorites
      = favorites.filter (fun i => i != hotelId) := by
  simp [handleToggleFavorite, h]

/-- With the hotel not yet a favorite, a successful toggle appends it. -/
theorem handleToggleFavorite_ok_not_mem (u : User) (favorites : List Nat) (hotelId : Nat)
    (h : hotelId ∉ favorites) :
    (handleToggleFavorite (some u) (Except.ok ()) favorites hotelId).favorites
      = favorites ++ [hotelId] := by
  simp [handleToggleFavorite, h]

/-- C6: with an active session and both network calls succeeding, toggling the
same hotel twice restores the membership of the local favorites set, the first
toggle adding the id when it was absent and removing it when it was present. -/
theorem handleToggleFavorite_twice (u : User) (favorites : List Nat) (hotelId : Nat) :
    (∀ x, x ∈ (handleToggleFavorite (some u) (Except.ok ())
        ((handleToggleFavorite (some u) (Except.ok ()) favorites hotelId).favorites)
        hotelId).favorites ↔ x ∈ favorites) ∧
    (hotelId ∉ favorites →
      hotelId ∈ (handleToggleFavorite (some u) (Except.ok ()) favorites hotelId).favorites) ∧
    (hotelId ∈ favorites →
      hotelId ∉ (handleToggleFavorite (some u) (Except.ok ()) favorites hotelId).favorites) := by
  by_cases h : hotelId ∈ favorites
  · have h1 : (handleToggleFavorite (some u) (Except.ok ()) favorites hotelId).favorites
        = favorites.filter (fun i => i != hotelId) :=
      handleToggleFavorite_ok_mem u favorites hotelId h
    have hnot : hotelId ∉ favorites.filter (fun i => i != hotelId) := by
      intro hmem
      have := (List.mem_filter.mp hmem).2
      simp at this
    have h2 : (handleToggleFavorite (some u) (Except.ok ())
          (favorites.filter (fun i => i != hotelId)) hotelId).favorites
        = favorites.filter (fun i => i != hotelId) ++ [hotelId] :=
      handleToggleFavorite_ok_not_mem u _ hotelId hnot
    refine ⟨?_, fun hno => absurd h hno, fun _ => h1 ▸ hnot⟩
    intro x
    rw [h1, h2]
    by_cases hx : x = hotelId <;>
      simp [List.mem_append, List.mem_filter, hx, h]
  · have h1 : (handleToggleFavorite (some u) (Except.ok ()) favorites hotelId).favorites
        = favorites ++ [hotelId] :=
      handleToggleFavorite_ok_not_mem u favorites hotelId h
    have hmem : hotelId ∈ favorites ++ [hotelId] := by simp
    have h2 : (handleToggleFavorite (some u) (Except.ok ()) (favorites ++ [hotelId])
          hotelId).favorites
        = (favorites ++ [hotelId]).filter (fun i => i != hotelId) :=
      handleToggleFavorite_ok_mem u _ hotelId hmem
    refine ⟨?_, ?_, fun hyes => absurd hyes h⟩
    · intro x
      rw [h1, h2]
      by_cases hx : x = hotelId <;>
        simp [List.mem_filter, List.mem_append, hx, h]
    · intro _
      rw [h1]
      simp

/-- C6 witness: starting from `[5]`, toggling hotel `7` twice restores the
membership of `5` and of `7`; the first toggle adds `7`. -/
theorem handleToggleFavorite_twice_witness :
    (5 ∈ (handleToggleFavorite (some ⟨4, "u@example.com", Role.user⟩) (Except.ok ())
        ((handleToggleFavorite (some ⟨4, "u@example.com", Role.user⟩) (Except.ok ()) [5] 7).favorites)
        7).favorites ↔ 5 ∈ [5]) ∧
    (7 ∈ (handleToggleFavorite (some ⟨4, "u@example.com", Role.user⟩) (Except.ok ()) [5] 7).favorites) :=
  ⟨(handleToggleFavorite_twice ⟨4, "u@example.com", Role.user⟩ [5] 7).1 5,
   (handleToggleFavorite_twice ⟨4, "u@example.com", Role.user⟩ [5] 7).2.1 (by decide)⟩

/-- C7: the cancel handler patches local state only on success and only at the
matching booking's status field, leaving every other field and every other
booking untouched; on failure the list is entirely unchanged; and the confirm
and complete handlers never patch the local list, refetching exactly when the
mutating call succeeds. -/
theorem handleCancelBooking_frame (net : Except ApiError Unit) (bookings : List Booking)
    (bookingId : Nat) :
    (handleCancelBooking net bookings bookingId).bookings.length = bookings.length ∧
    (net = Except.ok () → ∀ (i : Nat) (b : Booking), bookings[i]? = some b →
      ∃ b' : Booking, (handleCancelBooking net bookings bookingId).bookings[i]? = some b' ∧
        b'.id = b.id ∧ b'.hotelName = b.hotelName ∧ b'.hotelAddress = b.hotelAddress ∧
        b'.checkInDate = b.checkInDate ∧ b'.checkOutDate = b.checkOutDate ∧
        b'.guestCount = b.guestCount ∧ b'.totalPrice = b.totalPrice ∧
        b'.specialRequests = b.specialRequests ∧ b'.createdAt = b.createdAt ∧
        b'.status = (if b.id = bookingId then "cancelled" else b.status)) ∧
    (∀ e, net = Except.error e →
      (handleCancelBooking net bookings bookingId).bookings = bookings) ∧
    (∀ obs, (handleConfirmBooking net obs bookingId).bookings = obs ∧
      (handleCompleteBooking net obs bookingId).bookings = obs ∧
      ((handleConfirmBooking net obs bookingId).refetch = true ↔ net = Except.ok ()) ∧
      ((handleCompleteBooking net obs bookingId).refetch = true ↔ net = Except.ok ())) := by
  cases net with
  | ok v =>
    cases v
    refine ⟨by simp [handleCancelBooking], ?_, ?_, ?_⟩
    · intro _ i b hb
      refine ⟨if b.id = bookingId then { b with status := "cancelled" } else b, ?_, ?_⟩
      · simp [handleCancelBooking, List.getElem?_map, hb]
      · by_cases hid : b.id = bookingId <;> simp [hid]
    · intro e he
      exact Except.noConfusion he
    · intro obs
      exact ⟨rfl, rfl, by simp [handleConfirmBooking], by simp [handleCompleteBooking]⟩
  | error e =>
    refine ⟨rfl, ?_, ?_, ?_⟩
    · intro h
      exact Except.noConfusion h
    · intro e' _
      rfl
    · intro obs
      exact ⟨rfl, rfl, by simp [handleConfirmBooking], by simp [handleCompleteBooking]⟩

/-- C7 witness: on a one-element list, a successful cancel patches the status to
`cancelled` with all other fields intact, a failed cancel leaves the list
unchanged, and confirm refetches exactly on success. -/
theorem handleCancelBooking_frame_witness :
    (handleCancelBooking (Except.ok ()) [bookingSample] 1).bookings.length
      = [bookingSample].length ∧
    (∃ b' : Booking,
      (handleCancelBooking (Except.ok ()) [bookingSample] 1).bookings[0]? = some b' ∧
      b'.id = bookingSample.id ∧ b'.hotelName = bookingSample.hotelName ∧
      b'.hotelAddress = bookingSample.hotelAddress ∧
      b'.checkInDate = bookingSample.checkInDate ∧
      b'.checkOutDate = bookingSample.checkOutDate ∧
      b'.guestCount = bookingSample.guestCount ∧
      b'.totalPrice = bookingSample.totalPrice ∧
      b'.specialRequests = bookingSample.specialRequests ∧
      b'.createdAt = bookingSample.createdAt ∧
      b'.status = (if bookingSample.id = 1 then "cancelled" else bookingSample.status)) ∧
    (handleCancelBooking (Except.error apiErrorSample) [bookingSample] 1).bookings
      = [bookingSample] ∧
    ((handleConfirmBooking (Except.ok ()) [] 1).refetch = true ↔
      (Except.ok () : Except ApiError Unit) = Except.ok ()) :=
  ⟨(handleCancelBooking_frame (Except.ok ()) [bookingSample] 1).1,
   (handleCancelBooking_frame (Except.ok ()) [bookingSample] 1).2.1 rfl 0 bookingSample rfl,
   (handleCancelBooking_frame (Except.error apiErrorSample) [bookingSample] 1).2.2.1
     apiErrorSample rfl,
   ((handleCancelBooking_frame (Except.ok ()) [] 1).2.2.2 []).2.2.1⟩

/-- C8: the operator view renders the confirm action exactly for status
`pending` and the complete action exactly for status `confirmed`, the user view
renders the cancel action exactly for status `pending`, and hence a booking in
status `cancelled` or `completed` exposes no mutating action in either view. -/
theorem booking_status_actions (status : String) :
    (OperatorBookingAction.confirmBooking ∈ operatorBookingActions status ↔
      status = "pending") ∧
    (OperatorBookingAction.completeBooking ∈ operatorBookingActions status ↔
      status = "confirmed") ∧
    (userCenterShowsCancel status = true ↔ status = "pending") ∧
    (status = "cancelled" ∨ status = "completed" →
      operatorBookingActions status = [] ∧ userCenterShowsCancel status = false) := by
  by_cases hp : status = "pending"
  · subst hp
    refine ⟨?_, ?_, ?_, ?_⟩ <;> simp [operatorBookingActions, userCenterShowsCancel]
  · by_cases hc : status = "confirmed"
    · subst hc
      refine ⟨?_, ?_, ?_, ?_⟩ <;> simp [operatorBookingActions, userCenterShowsCancel]
    · refine ⟨?_, ?_, ?_, ?_⟩ <;>
        simp [operatorBookingActions, userCenterShowsCancel, hp, hc]

/-- C8 witness: cancelled and completed bookings render no mutating action. -/
theorem booking_status_actions_witness :
    (operatorBookingActions "cancelled" = [] ∧ userCenterShowsCancel "cancelled" = false) ∧
    (operatorBookingActions "completed" = [] ∧ userCenterShowsCancel "completed" = false) :=
  ⟨(booking_status_actions "cancelled").2.2.2 (Or.inl rfl),
   (booking_status_actions "completed").2.2.2 (Or.inr rfl)⟩

/-- C9: the operator hotel-card edit and delete actions are reachable if and only
if a session is present and the hotel's `operatorId` equals the session user's
id; both buttons are enabled under exactly that condition. -/
theorem hotel_actions_require_ownership (user : Option User) (hotel : Hotel) :
    (hotelEditReachable user hotel = true ↔
      ∃ u, user = some u ∧ hotel.operatorId = u.id) ∧
    (hotelDeleteReachable user hotel = true ↔
      ∃ u, user = some u ∧ hotel.operatorId = u.id) ∧
    (hotelEditDisabled user hotel = false ↔
      ∃ u, user = some u ∧ hotel.operatorId = u.id) ∧
    (hotelDeleteDisabled user hotel = false ↔
      ∃ u, user = some u ∧ hotel.operatorId = u.id) ∧
    (hotelEditOnClickAttached user hotel = true ↔
      ∃ u, user = some u ∧ hotel.operatorId = u.id) := by
  cases user with
  | none =>
    refine ⟨?_, ?_, ?_, ?_, ?_⟩ <;>
      simp [hotelEditReachable, hotelDeleteReachable, hotelEditDisabled,
        hotelDeleteDisabled, hotelEditOnClickAttached, hotelDeleteOnClickAttached,
        hotelOwnedByCurrent]
  | some u =>
    refine ⟨?_, ?_, ?_, ?_, ?_⟩ <;>
      simp [hotelEditReachable, hotelDeleteReachable, hotelEditDisabled,
        hotelDeleteDisabled, hotelEditOnClickAttached, hotelDeleteOnClickAttached,
        hotelOwnedByCurrent]

/-- C10: with `availableRooms = 0` the Book Now button is disabled, so a click
opens no dialog, issues no call, and navigates nowhere; an unauthenticated click
on an enabled button navigates to `/login` without opening the dialog or issuing
a call, which is exactly what `handleBooking` does for an absent session. -/
theorem bookNow_guard (user : Option User) (hotel : Hotel) :
    (hotel.availableRooms = 0 →
      clickBookNow user hotel
        = { dialogOpen := false, navigatedTo := none, calls := [] }) ∧
    (hotel.availableRooms ≠ 0 →
      clickBookNow none hotel
        = { dialogOpen := false, navigatedTo := some "/login", calls := [] }) ∧
    handleBooking none = { dialogOpen := false, navigatedTo := some "/login", calls := [] } := by
  refine ⟨?_, ?_, rfl⟩
  · intro h
    simp [clickBookNow, bookNowDisabled, h]
  · intro h
    simp [clickBookNow, bookNowDisabled, h, handleBooking]

/-- C10 witness: a signed-in click on a fully-booked hotel does nothing, and an
anonymous click on an available hotel goes to the login view. -/
theorem bookNow_guard_witness :
    clickBookNow (some ⟨6, "g@example.com", Role.user⟩) hotelNoRooms
      = { dialogOpen := false, navigatedTo := none, calls := [] } ∧
    clickBookNow none hotelOpenRooms
      = { dialogOpen := false, navigatedTo := some "/login", calls := [] } :=
  ⟨(bookNow_guard (some ⟨6, "g@example.com", Role.user⟩) hotelNoRooms).1 rfl,
   (bookNow_guard none hotelOpenRooms).2.1 (by decide)⟩
